import Mathlib

/-!
Shallow embedding of `rejestr_io_mcp.py`, an MCP server exposing the
rejestr.io API as eleven tool operations.  Each tool interpolates its
string arguments into a fixed endpoint template, delegates to the shared
helper `make_rejestr_io_request`, and maps remote failures to a uniform
error value.  The remote side (network plus HTTP server) is modelled as
an oracle `World : Request → NetResult`; the httpx layer
(`client.get` + `raise_for_status` + `response.json()`) is modelled by
`httpxGetJson`.  Every tool returns its result paired with the list of
requests it issued, so that claims about outbound traffic are statable.
-/

/-- JSON values, the shape of `response.json()` in Python.  Numbers are
modelled as integers (no claim depends on float formatting). -/
inductive Json where
  | null : Json
  | bool (b : Bool) : Json
  | num (n : Int) : Json
  | str (s : String) : Json
  | arr (elems : List Json) : Json
  | obj (fields : List (String × Json)) : Json
deriving Repr

/-- Discriminator: is this JSON value an object (a Python mapping)? -/
def Json.isObj : Json → Bool
  | .obj _ => true
  | _ => false

mutual
/-- Model of Python `str(x)` for a decoded JSON value, as used by the
interpolation `f"{data} PLN"` in `get_token_amount`.  At top level a
string renders without quotes; inside containers elements render with
`repr`.  String escaping inside `repr` is elided (identity quoting),
which is faithful for strings without quote or backslash characters. -/
def pyStr : Json → String
  | .str s => s
  | j => pyRepr j

/-- Model of Python `repr(x)` for a decoded JSON value. -/
def pyRepr : Json → String
  | .null => "None"
  | .bool true => "True"
  | .bool false => "False"
  | .num n => toString n
  | .str s => "'" ++ s ++ "'"
  | .arr elems => "[" ++ pyReprList elems ++ "]"
  | .obj fields => "\x7b" ++ pyReprObj fields ++ "\x7d"

/-- Comma-joined `repr`s of list elements. -/
def pyReprList : List Json → String
  | [] => ""
  | [j] => pyRepr j
  | j :: js => pyRepr j ++ ", " ++ pyReprList js

/-- Comma-joined `key: value` renderings of dict entries. -/
def pyReprObj : List (String × Json) → String
  | [] => ""
  | [kv] => "'" ++ kv.1 ++ "': " ++ pyRepr kv.2
  | kv :: kvs => "'" ++ kv.1 ++ "': " ++ pyRepr kv.2 ++ ", " ++ pyReprObj kvs
end

/-- Process environment at startup: the single credential read by
`os.getenv("REJESTR_IO_API_KEY")`.  `none` models an absent variable
(Python `None`). -/
structure Env where
  REJESTR_IO_API_KEY : Option String
deriving Repr

/-- `headers = {'Authorization': os.getenv("REJESTR_IO_API_KEY")}` —
the static header mapping attached to every outbound request.  A header
value is `Option String` because `os.getenv` yields `None` when the
variable is absent and the dict is built without any validation. -/
def headers (env : Env) : List (String × Option String) :=
  [("Authorization", env.REJESTR_IO_API_KEY)]

/-- `REJESTR_IO_BASE_API = "https://rejestr.io/api/v2"`. -/
def REJESTR_IO_BASE_API : String := "https://rejestr.io/api/v2"

/-- An outbound HTTP GET request: target URL and header mapping. -/
structure Request where
  url : String
  hdrs : List (String × Option String)
deriving Repr

/-- What the remote side does with one request: either an HTTP response
(status code and decoded JSON body) or a network-level failure carrying
the message of the transport exception. -/
inductive NetResult where
  | response (status : Nat) (body : Json) : NetResult
  | netError (details : String) : NetResult

/-- The remote world: an oracle assigning an outcome to every request. -/
def World : Type := Request → NetResult

/-- Model of the transport exchange in the httpx call sequence
`response = await client.get(url, headers=headers)`;
`response.raise_for_status()`; `return response.json()`, for a request
that httpx's request construction has accepted — every header value a
string.  (The header-normalization step of `client.get`, which rejects
a `None` header value with a local `TypeError` before anything is
sent, is modelled by `make_rejestr_io_request_full` below.)
A network failure raises with its own message; `raise_for_status`
raises on every non-2xx status (httpx counts 200–299 as success); a 2xx
response yields the decoded body.  The exception text for a status
error is modelled as a message naming the status and the URL. -/
def httpxGetJson (world : World) (req : Request) : Except String Json :=
  match world req with
  | .netError d => .error d
  | .response status body =>
      if 200 ≤ status ∧ status ≤ 299 then .ok body
      else .error ("HTTP status error " ++ toString status ++ " for url " ++ req.url)

/-- The request built by `make_rejestr_io_request` for a given endpoint:
`GET f"{REJESTR_IO_BASE_API}/{endpoint}"` with the static headers. -/
def requestFor (env : Env) (endpoint : String) : Request :=
  ⟨REJESTR_IO_BASE_API ++ "/" ++ endpoint, headers env⟩

/-- `make_rejestr_io_request(endpoint)`: perform one authenticated GET to
`{base}/{endpoint}` and return the decoded JSON, or the raised
`httpx.HTTPError`'s message.  The second component records the requests
issued: always exactly the one request, no retry.  This covers the
configured case (credential present as a string);
`make_rejestr_io_request_full` refines it with httpx's header-value
check, which matters only when the credential is absent. -/
def make_rejestr_io_request (env : Env) (world : World) (endpoint : String) :
    Except String Json × List Request :=
  (httpxGetJson world (requestFor env endpoint), [requestFor env endpoint])

/-- The uniform error envelope built by the ten dict-returning tools:
`{"error": f"An error occurred: {e}"}`. -/
def errorEnvelope (details : String) : Json :=
  .obj [("error", .str ("An error occurred: " ++ details))]

/-- `get_token_amount()`: fetch `konto/stan`; on success return
`f"{data} PLN"`, on `httpx.HTTPError` return the bare string
`f"An error occurred: {e}"` (note: a string, not a mapping). -/
def get_token_amount (env : Env) (world : World) : String × List Request :=
  match make_rejestr_io_request env world "konto/stan" with
  | (.ok data, trace) => (pyStr data ++ " PLN", trace)
  | (.error e, trace) => ("An error occurred: " ++ e, trace)

/-- `get_company_info_using_nip(nip)`: fetch `org/nip/{nip}`; pass the
body through, or return the error envelope. -/
def get_company_info_using_nip (env : Env) (world : World) (nip : String) :
    Json × List Request :=
  match make_rejestr_io_request env world ("org/nip/" ++ nip) with
  | (.ok data, trace) => (data, trace)
  | (.error e, trace) => (errorEnvelope e, trace)

/-- `get_company_info_using_krs(krs)`: fetch `org/{krs}`. -/
def get_company_info_using_krs (env : Env) (world : World) (krs : String) :
    Json × List Request :=
  match make_rejestr_io_request env world ("org/" ++ krs) with
  | (.ok data, trace) => (data, trace)
  | (.error e, trace) => (errorEnvelope e, trace)

/-- `get_company_info_using_name(name)`: fetch `org?nazwa={name}`. -/
def get_company_info_using_name (env : Env) (world : World) (name : String) :
    Json × List Request :=
  match make_rejestr_io_request env world ("org?nazwa=" ++ name) with
  | (.ok data, trace) => (data, trace)
  | (.error e, trace) => (errorEnvelope e, trace)

/-- `get_company_krs_documentation(krs, chapter)`: fetch
`org/{krs}/krs-rozdzialy/{chapter}`. -/
def get_company_krs_documentation (env : Env) (world : World)
    (krs chapter : String) : Json × List Request :=
  match make_rejestr_io_request env world ("org/" ++ krs ++ "/krs-rozdzialy/" ++ chapter) with
  | (.ok data, trace) => (data, trace)
  | (.error e, trace) => (errorEnvelope e, trace)

/-- `get_person_data(id)`: fetch `osoby/{id}`. -/
def get_person_data (env : Env) (world : World) (pid : String) :
    Json × List Request :=
  match make_rejestr_io_request env world ("osoby/" ++ pid) with
  | (.ok data, trace) => (data, trace)
  | (.error e, trace) => (errorEnvelope e, trace)

/-- `get_beneficiary(krs)`: fetch `org/{krs}/crbr`. -/
def get_beneficiary (env : Env) (world : World) (krs : String) :
    Json × List Request :=
  match make_rejestr_io_request env world ("org/" ++ krs ++ "/crbr") with
  | (.ok data, trace) => (data, trace)
  | (.error e, trace) => (errorEnvelope e, trace)

/-- `get_connections_by_krs(krs)`: fetch `org/{krs}/krs-powiazania`. -/
def get_connections_by_krs (env : Env) (world : World) (krs : String) :
    Json × List Request :=
  match make_rejestr_io_request env world ("org/" ++ krs ++ "/krs-powiazania") with
  | (.ok data, trace) => (data, trace)
  | (.error e, trace) => (errorEnvelope e, trace)

/-- `get_connections_by_person(id)`: fetch `osoby/{id}/krs-powiazania`. -/
def get_connections_by_person (env : Env) (world : World) (pid : String) :
    Json × List Request :=
  match make_rejestr_io_request env world ("osoby/" ++ pid ++ "/krs-powiazania") with
  | (.ok data, trace) => (data, trace)
  | (.error e, trace) => (errorEnvelope e, trace)

/-- `get_financial_documents(krs)`: fetch `org/{krs}/krs-dokumenty`. -/
def get_financial_documents (env : Env) (world : World) (krs : String) :
    Json × List Request :=
  match make_rejestr_io_request env world ("org/" ++ krs ++ "/krs-dokumenty") with
  | (.ok data, trace) => (data, trace)
  | (.error e, trace) => (errorEnvelope e, trace)

/-- `get_financial_statement_in_json(krs, doc_id)`: fetch
`org/{krs}/krs-dokumenty/{doc_id}?format=json`. -/
def get_financial_statement_in_json (env : Env) (world : World)
    (krs doc_id : String) : Json × List Request :=
  match make_rejestr_io_request env world
      ("org/" ++ krs ++ "/krs-dokumenty/" ++ doc_id ++ "?format=json") with
  | (.ok data, trace) => (data, trace)
  | (.error e, trace) => (errorEnvelope e, trace)

/-! ### Concrete environments and worlds used by witnesses -/

/-- An environment with the credential present. -/
def envKey : Env := ⟨some "secret-key"⟩

/-- An environment with the credential absent (`os.getenv` yields `None`). -/
def envMissing : Env := ⟨none⟩

/-- A world where every request fails at the network level. -/
def failWorld (d : String) : World := fun _ => .netError d

/-- A world where every request yields HTTP 200 with body `j`. -/
def okWorld (j : Json) : World := fun _ => .response 200 j

/-- A world where every request yields an HTTP 401 response. -/
def unauthorizedWorld : World := fun _ => .response 401 (.obj [])

/-- A world answering the KRS-lookup URL for "12345" with one body and
every other request with another; used to show that each operation only
sees the response to its own request. -/
def mixedWorld : World := fun r =>
  if r.url = "https://rejestr.io/api/v2/org/12345" then .response 200 (.num 1)
  else .response 200 (.num 2)

/-! ### URL-syntax helpers for stating claims about query strings -/

/-- Split a character list on a separator (the separator is dropped). -/
def splitOnChar (c : Char) : List Char → List (List Char)
  | [] => [[]]
  | x :: xs =>
      let r := splitOnChar c xs
      if x = c then [] :: r
      else
        match r with
        | [] => [[x]]
        | y :: ys => (x :: y) :: ys

/-- The suffix after the first occurrence of a character, if any. -/
def afterChar (c : Char) : List Char → Option (List Char)
  | [] => none
  | x :: xs => if x = c then some xs else afterChar c xs

/-- The query parameters of a URL, read per generic URL syntax: the part
after the first '?' is split on '&', and each piece on '='. -/
def queryParamsOf (url : String) : List (String × String) :=
  match afterChar '?' url.toList with
  | none => []
  | some q =>
      (splitOnChar '&' q).map fun p =>
        match splitOnChar '=' p with
        | [] => ("", "")
        | [k] => (String.mk k, "")
        | k :: v :: _ => (String.mk k, String.mk v)

/-! ### Header normalization (httpx request construction) -/

/-- Python exceptions relevant at the tool boundary: `httpx.HTTPError`
(with its subclasses), which the tools catch, and the builtin
`TypeError` raised by httpx's header normalization, which they do
not. -/
inductive PyExc where
  | httpError (details : String) : PyExc
  | typeError (details : String) : PyExc
deriving Repr

/-- Whether an `except httpx.HTTPError` clause catches the exception. -/
def PyExc.isHTTPError : PyExc → Bool
  | .httpError _ => true
  | .typeError _ => false

/-- The message of the `TypeError` raised by httpx's
`normalize_header_value` when a header value is `None`. -/
def typeErrorMsg : String := "Header value must be str or bytes, not NoneType"

/-- Whether every header value is a string, so that httpx accepts the
header mapping when building the request. -/
def headerValuesOk (hdrs : List (String × Option String)) : Bool :=
  hdrs.all (fun kv => kv.2.isSome)

/-- Modelled from httpx's request construction (library code external
to this repository): `client.get` normalizes every header value while
building the request; a string value is accepted, but a `None` value —
exactly what `headers` holds when the credential is absent — raises a
local `TypeError` before any request is issued.  This refines
`make_rejestr_io_request`: with every header value a string the call
behaves as `httpxGetJson`, whose failures are `httpx.HTTPError`s;
otherwise it raises `TypeError` and issues no request. -/
def make_rejestr_io_request_full (env : Env) (world : World) (endpoint : String) :
    Except PyExc Json × List Request :=
  if headerValuesOk (headers env) then
    match httpxGetJson world (requestFor env endpoint) with
    | .ok data => (.ok data, [requestFor env endpoint])
    | .error d => (.error (.httpError d), [requestFor env endpoint])
  else
    (.error (.typeError typeErrorMsg), [])

/-- `get_company_info_using_krs` over the full model: its except clause
catches `httpx.HTTPError` only, so any other exception propagates out
of the tool uncaught. -/
def get_company_info_using_krs_full (env : Env) (world : World) (krs : String) :
    Except PyExc Json × List Request :=
  match make_rejestr_io_request_full env world ("org/" ++ krs) with
  | (.ok data, trace) => (.ok data, trace)
  | (.error (.httpError d), trace) => (.ok (errorEnvelope d), trace)
  | (.error e, trace) => (.error e, trace)

/-! ### Characterization lemmas (shared helpers) -/

/-- The value component a dict-returning tool derives from the helper's
outcome: pass-through on success, error envelope on failure. -/
def dictResult : Except String Json → Json
  | .ok data => data
  | .error e => errorEnvelope e

theorem get_token_amount_eq (env : Env) (world : World) :
    get_token_amount env world =
      ((match httpxGetJson world (requestFor env "konto/stan") with
        | .ok data => pyStr data ++ " PLN"
        | .error e => "An error occurred: " ++ e),
       [requestFor env "konto/stan"]) := by
  unfold get_token_amount make_rejestr_io_request
  cases httpxGetJson world (requestFor env "konto/stan") <;> rfl

theorem get_company_info_using_nip_eq (env : Env) (world : World) (nip : String) :
    get_company_info_using_nip env world nip =
      (dictResult (httpxGetJson world (requestFor env ("org/nip/" ++ nip))),
       [requestFor env ("org/nip/" ++ nip)]) := by
  unfold get_company_info_using_nip make_rejestr_io_request
  cases httpxGetJson world (requestFor env ("org/nip/" ++ nip)) <;> rfl

theorem get_company_info_using_krs_eq (env : Env) (world : World) (krs : String) :
    get_company_info_using_krs env world krs =
      (dictResult (httpxGetJson world (requestFor env ("org/" ++ krs))),
       [requestFor env ("org/" ++ krs)]) := by
  unfold get_company_info_using_krs make_rejestr_io_request
  cases httpxGetJson world (requestFor env ("org/" ++ krs)) <;> rfl

theorem get_company_info_using_name_eq (env : Env) (world : World) (name : String) :
    get_company_info_using_name env world name =
      (dictResult (httpxGetJson world (requestFor env ("org?nazwa=" ++ name))),
       [requestFor env ("org?nazwa=" ++ name)]) := by
  unfold get_company_info_using_name make_rejestr_io_request
  cases httpxGetJson world (requestFor env ("org?nazwa=" ++ name)) <;> rfl

theorem get_company_krs_documentation_eq (env : Env) (world : World)
    (krs chapter : String) :
    get_company_krs_documentation env world krs chapter =
      (dictResult (httpxGetJson world
         (requestFor env ("org/" ++ krs ++ "/krs-rozdzialy/" ++ chapter))),
       [requestFor env ("org/" ++ krs ++ "/krs-rozdzialy/" ++ chapter)]) := by
  unfold get_company_krs_documentation make_rejestr_io_request
  cases httpxGetJson world (requestFor env ("org/" ++ krs ++ "/krs-rozdzialy/" ++ chapter)) <;> rfl

theorem get_person_data_eq (env : Env) (world : World) (pid : String) :
    get_person_data env world pid =
      (dictResult (httpxGetJson world (requestFor env ("osoby/" ++ pid))),
       [requestFor env ("osoby/" ++ pid)]) := by
  unfold get_person_data make_rejestr_io_request
  cases httpxGetJson world (requestFor env ("osoby/" ++ pid)) <;> rfl

theorem get_beneficiary_eq (env : Env) (world : World) (krs : String) :
    get_beneficiary env world krs =
      (dictResult (httpxGetJson world (requestFor env ("org/" ++ krs ++ "/crbr"))),
       [requestFor env ("org/" ++ krs ++ "/crbr")]) := by
  unfold get_beneficiary make_rejestr_io_request
  cases httpxGetJson world (requestFor env ("org/" ++ krs ++ "/crbr")) <;> rfl

theorem get_connections_by_krs_eq (env : Env) (world : World) (krs : String) :
    get_connections_by_krs env world krs =
      (dictResult (httpxGetJson world (requestFor env ("org/" ++ krs ++ "/krs-powiazania"))),
       [requestFor env ("org/" ++ krs ++ "/krs-powiazania")]) := by
  unfold get_connections_by_krs make_rejestr_io_request
  cases httpxGetJson world (requestFor env ("org/" ++ krs ++ "/krs-powiazania")) <;> rfl

theorem get_connections_by_person_eq (env : Env) (world : World) (pid : String) :
    get_connections_by_person env world pid =
      (dictResult (httpxGetJson world (requestFor env ("osoby/" ++ pid ++ "/krs-powiazania"))),
       [requestFor env ("osoby/" ++ pid ++ "/krs-powiazania")]) := by
  unfold get_connections_by_person make_rejestr_io_request
  cases httpxGetJson world (requestFor env ("osoby/" ++ pid ++ "/krs-powiazania")) <;> rfl

theorem get_financial_documents_eq (env : Env) (world : World) (krs : String) :
    get_financial_documents env world krs =
      (dictResult (httpxGetJson world (requestFor env ("org/" ++ krs ++ "/krs-dokumenty"))),
       [requestFor env ("org/" ++ krs ++ "/krs-dokumenty")]) := by
  unfold get_financial_documents make_rejestr_io_request
  cases httpxGetJson world (requestFor env ("org/" ++ krs ++ "/krs-dokumenty")) <;> rfl

theorem get_financial_statement_in_json_eq (env : Env) (world : World)
    (krs doc_id : String) :
    get_financial_statement_in_json env world krs doc_id =
      (dictResult (httpxGetJson world
         (requestFor env ("org/" ++ krs ++ "/krs-dokumenty/" ++ doc_id ++ "?format=json"))),
       [requestFor env ("org/" ++ krs ++ "/krs-dokumenty/" ++ doc_id ++ "?format=json")]) := by
  unfold get_financial_statement_in_json make_rejestr_io_request
  cases httpxGetJson world
    (requestFor env ("org/" ++ krs ++ "/krs-dokumenty/" ++ doc_id ++ "?format=json")) <;> rfl

theorem dictResult_ok (data : Json) : dictResult (.ok data) = data := rfl

theorem dictResult_error (e : String) : dictResult (.error e) = errorEnvelope e := rfl

/-! ### Claim theorems -/

/-- C3: for every endpoint string passed to the request helper, the
outbound request targets exactly `{base}/{endpoint}` and carries the
static credential as an authorization header, and every tool issues
exactly such requests: each of the eleven operations issues exactly the
one request built by `requestFor` from its own endpoint template. -/
theorem every_request_targets_base_endpoint_with_credential :
    ∀ (env : Env) (world : World)
      (endpoint nip krs name chapter pid doc_id : String),
    (requestFor env endpoint).url = REJESTR_IO_BASE_API ++ "/" ++ endpoint ∧
    (requestFor env endpoint).hdrs = [("Authorization", env.REJESTR_IO_API_KEY)] ∧
    (make_rejestr_io_request env world endpoint).2 = [requestFor env endpoint] ∧
    (get_token_amount env world).2 = [requestFor env "konto/stan"] ∧
    (get_company_info_using_nip env world nip).2 = [requestFor env ("org/nip/" ++ nip)] ∧
    (get_company_info_using_krs env world krs).2 = [requestFor env ("org/" ++ krs)] ∧
    (get_company_info_using_name env world name).2 = [requestFor env ("org?nazwa=" ++ name)] ∧
    (get_company_krs_documentation env world krs chapter).2 =
      [requestFor env ("org/" ++ krs ++ "/krs-rozdzialy/" ++ chapter)] ∧
    (get_person_data env world pid).2 = [requestFor env ("osoby/" ++ pid)] ∧
    (get_beneficiary env world krs).2 = [requestFor env ("org/" ++ krs ++ "/crbr")] ∧
    (get_connections_by_krs env world krs).2 =
      [requestFor env ("org/" ++ krs ++ "/krs-powiazania")] ∧
    (get_connections_by_person env world pid).2 =
      [requestFor env ("osoby/" ++ pid ++ "/krs-powiazania")] ∧
    (get_financial_documents env world krs).2 =
      [requestFor env ("org/" ++ krs ++ "/krs-dokumenty")] ∧
    (get_financial_statement_in_json env world krs doc_id).2 =
      [requestFor env ("org/" ++ krs ++ "/krs-dokumenty/" ++ doc_id ++ "?format=json")] := by
  intro env world endpoint nip krs name chapter pid doc_id
  refine ⟨rfl, rfl, rfl, ?_, ?_, ?_, ?_, ?_, ?_, ?_, ?_, ?_, ?_, ?_⟩ <;>
    simp [get_token_amount_eq, get_company_info_using_nip_eq,
      get_company_info_using_krs_eq, get_company_info_using_name_eq,
      get_company_krs_documentation_eq, get_person_data_eq, get_beneficiary_eq,
      get_connections_by_krs_eq, get_connections_by_person_eq,
      get_financial_documents_eq, get_financial_statement_in_json_eq]

/-- C5: `get_company_info_using_krs(krs)` requests the endpoint
`org/{krs}` with the argument passed through unmodified — no
zero-padding or zero-stripping — and in particular the inputs
"0000012345" and "12345" produce requests for
`.../org/0000012345` and `.../org/12345` respectively. -/
theorem krs_lookup_passes_id_verbatim :
    ∀ (env : Env) (world : World) (krs : String),
    (get_company_info_using_krs env world krs).2 = [requestFor env ("org/" ++ krs)] ∧
    (requestFor env ("org/" ++ krs)).url = REJESTR_IO_BASE_API ++ "/org/" ++ krs ∧
    (get_company_info_using_krs env world "0000012345").2 =
      [⟨"https://rejestr.io/api/v2/org/0000012345", headers env⟩] ∧
    (get_company_info_using_krs env world "12345").2 =
      [⟨"https://rejestr.io/api/v2/org/12345", headers env⟩] := by
  intro env world krs
  refine ⟨?_, ?_, ?_, ?_⟩
  · rw [get_company_info_using_krs_eq]
  · simp only [requestFor, ← String.append_assoc]
    rfl
  · rw [get_company_info_using_krs_eq]; rfl
  · rw [get_company_info_using_krs_eq]; rfl

/-- C7: `get_financial_statement_in_json(krs, doc_id)` requests the
endpoint `org/{krs}/krs-dokumenty/{doc_id}?format=json` verbatim, with
both arguments interpolated unmodified and the fixed `?format=json`
suffix always present. -/
theorem financial_statement_endpoint_verbatim :
    ∀ (env : Env) (world : World) (krs doc_id : String),
    (get_financial_statement_in_json env world krs doc_id).2 =
      [requestFor env ("org/" ++ krs ++ "/krs-dokumenty/" ++ doc_id ++ "?format=json")] ∧
    (requestFor env ("org/" ++ krs ++ "/krs-dokumenty/" ++ doc_id ++ "?format=json")).url =
      REJESTR_IO_BASE_API ++ "/org/" ++ krs ++ "/krs-dokumenty/" ++ doc_id ++ "?format=json" ∧
    (get_financial_statement_in_json env world "12345" "777").2 =
      [⟨"https://rejestr.io/api/v2/org/12345/krs-dokumenty/777?format=json", headers env⟩] := by
  intro env world krs doc_id
  refine ⟨?_, ?_, ?_⟩
  · rw [get_financial_statement_in_json_eq]
  · simp only [requestFor, ← String.append_assoc]
    rfl
  · rw [get_financial_statement_in_json_eq]; rfl

/-- C10: string arguments are interpolated into the endpoint templates
verbatim, with no URL-encoding; `get_company_info_using_name(name)`
always requests exactly `org?nazwa={name}` with the name unencoded, and
for a name containing '&' — here "Foo&typ=sa" — the resulting URL
parses into two query parameters rather than the intended single
`nazwa` value. -/
theorem arguments_interpolated_without_url_encoding :
    ∀ (env : Env) (world : World) (name krs chapter doc_id : String),
    (get_company_info_using_name env world name).2 =
      [⟨REJESTR_IO_BASE_API ++ "/org?nazwa=" ++ name, headers env⟩] ∧
    (get_company_krs_documentation env world krs chapter).2 =
      [⟨REJESTR_IO_BASE_API ++ "/org/" ++ krs ++ "/krs-rozdzialy/" ++ chapter, headers env⟩] ∧
    (get_financial_statement_in_json env world krs doc_id).2 =
      [⟨REJESTR_IO_BASE_API ++ "/org/" ++ krs ++ "/krs-dokumenty/" ++ doc_id ++ "?format=json",
        headers env⟩] ∧
    (get_company_info_using_name env world "Foo&typ=sa").2.map
        (fun r => queryParamsOf r.url) = [[("nazwa", "Foo"), ("typ", "sa")]] := by
  intro env world name krs chapter doc_id
  refine ⟨?_, ?_, ?_, ?_⟩
  · rw [get_company_info_using_name_eq]
    simp only [requestFor, ← String.append_assoc]
    rfl
  · rw [get_company_krs_documentation_eq]
    simp only [requestFor, ← String.append_assoc]
    rfl
  · rw [get_financial_statement_in_json_eq]
    simp only [requestFor, ← String.append_assoc]
    rfl
  · rw [get_company_info_using_name_eq]
    rfl

/-- C6: `get_company_krs_documentation(krs, chapter)` requests
`org/{krs}/krs-rozdzialy/{chapter}` verbatim; the chapter "ogolny"
yields `org/{krs}/krs-rozdzialy/ogolny`, and any chapter string — also
one outside the documented enumeration — is forwarded verbatim with no
local validation: the result is the remote body on success and the
error envelope exactly when the remote call fails. -/
theorem chapter_forwarded_verbatim (env : Env) (world : World)
    (krs chapter : String) (J : Json) (d : String) :
    (get_company_krs_documentation env world krs chapter).2 =
      [requestFor env ("org/" ++ krs ++ "/krs-rozdzialy/" ++ chapter)] ∧
    (get_company_krs_documentation env world krs "ogolny").2 =
      [requestFor env ("org/" ++ krs ++ "/krs-rozdzialy/ogolny")] ∧
    ((make_rejestr_io_request env world
        ("org/" ++ krs ++ "/krs-rozdzialy/" ++ chapter)).1 = .ok J →
      (get_company_krs_documentation env world krs chapter).1 = J) ∧
    ((make_rejestr_io_request env world
        ("org/" ++ krs ++ "/krs-rozdzialy/" ++ chapter)).1 = .error d →
      (get_company_krs_documentation env world krs chapter).1 = errorEnvelope d) := by
  refine ⟨?_, ?_, ?_, ?_⟩
  · rw [get_company_krs_documentation_eq]
  · rw [get_company_krs_documentation_eq]
    rw [String.append_assoc]
    rfl
  · intro h
    simp only [make_rejestr_io_request] at h
    rw [get_company_krs_documentation_eq, h]
    rfl
  · intro h
    simp only [make_rejestr_io_request] at h
    rw [get_company_krs_documentation_eq, h]
    rfl

/-- C6 witness: with the out-of-enumeration chapter "not-a-chapter" and
a failing network, the tool still builds the verbatim endpoint and
returns the error envelope. -/
theorem chapter_forwarded_verbatim_witness :
    (get_company_krs_documentation envKey (failWorld "boom") "12345" "not-a-chapter").1 =
      errorEnvelope "boom" ∧
    (get_company_krs_documentation envKey (failWorld "boom") "12345" "not-a-chapter").2 =
      [⟨"https://rejestr.io/api/v2/org/12345/krs-rozdzialy/not-a-chapter", headers envKey⟩] := by
  have h := chapter_forwarded_verbatim envKey (failWorld "boom") "12345" "not-a-chapter"
    Json.null "boom"
  exact ⟨h.2.2.2 rfl, h.1⟩

/-- C2: when the helper decodes a successful remote response, every
tool except the balance check returns that JSON value unchanged, and
`get_token_amount` returns exactly the formatted string
`f"{J} PLN"` (that is, `pyStr J ++ " PLN"`). -/
theorem success_passthrough_except_token_amount (env : Env) (world : World)
    (nip krs name chapter pid doc_id : String)
    (J0 J1 J2 J3 J4 J5 J6 J7 J8 J9 J10 : Json)
    (h0 : (make_rejestr_io_request env world "konto/stan").1 = .ok J0)
    (h1 : (make_rejestr_io_request env world ("org/nip/" ++ nip)).1 = .ok J1)
    (h2 : (make_rejestr_io_request env world ("org/" ++ krs)).1 = .ok J2)
    (h3 : (make_rejestr_io_request env world ("org?nazwa=" ++ name)).1 = .ok J3)
    (h4 : (make_rejestr_io_request env world
        ("org/" ++ krs ++ "/krs-rozdzialy/" ++ chapter)).1 = .ok J4)
    (h5 : (make_rejestr_io_request env world ("osoby/" ++ pid)).1 = .ok J5)
    (h6 : (make_rejestr_io_request env world ("org/" ++ krs ++ "/crbr")).1 = .ok J6)
    (h7 : (make_rejestr_io_request env world ("org/" ++ krs ++ "/krs-powiazania")).1 = .ok J7)
    (h8 : (make_rejestr_io_request env world
        ("osoby/" ++ pid ++ "/krs-powiazania")).1 = .ok J8)
    (h9 : (make_rejestr_io_request env world ("org/" ++ krs ++ "/krs-dokumenty")).1 = .ok J9)
    (h10 : (make_rejestr_io_request env world
        ("org/" ++ krs ++ "/krs-dokumenty/" ++ doc_id ++ "?format=json")).1 = .ok J10) :
    (get_token_amount env world).1 = pyStr J0 ++ " PLN" ∧
    (get_company_info_using_nip env world nip).1 = J1 ∧
    (get_company_info_using_krs env world krs).1 = J2 ∧
    (get_company_info_using_name env world name).1 = J3 ∧
    (get_company_krs_documentation env world krs chapter).1 = J4 ∧
    (get_person_data env world pid).1 = J5 ∧
    (get_beneficiary env world krs).1 = J6 ∧
    (get_connections_by_krs env world krs).1 = J7 ∧
    (get_connections_by_person env world pid).1 = J8 ∧
    (get_financial_documents env world krs).1 = J9 ∧
    (get_financial_statement_in_json env world krs doc_id).1 = J10 := by
  simp only [make_rejestr_io_request] at h0 h1 h2 h3 h4 h5 h6 h7 h8 h9 h10
  refine ⟨?_, ?_, ?_, ?_, ?_, ?_, ?_, ?_, ?_, ?_, ?_⟩
  · rw [get_token_amount_eq, h0]
  · rw [get_company_info_using_nip_eq, h1]; rfl
  · rw [get_company_info_using_krs_eq, h2]; rfl
  · rw [get_company_info_using_name_eq, h3]; rfl
  · rw [get_company_krs_documentation_eq, h4]; rfl
  · rw [get_person_data_eq, h5]; rfl
  · rw [get_beneficiary_eq, h6]; rfl
  · rw [get_connections_by_krs_eq, h7]; rfl
  · rw [get_connections_by_person_eq, h8]; rfl
  · rw [get_financial_documents_eq, h9]; rfl
  · rw [get_financial_statement_in_json_eq, h10]; rfl

/-- C2 witness: a world answering every request with HTTP 200 and body
5 makes the balance check return "5 PLN" and the KRS lookup return the
body unchanged. -/
theorem success_passthrough_except_token_amount_witness :
    (get_token_amount envKey (okWorld (Json.num 5))).1 = "5 PLN" ∧
    (get_company_info_using_krs envKey (okWorld (Json.num 5)) "12345").1 = Json.num 5 := by
  have h := success_passthrough_except_token_amount envKey (okWorld (Json.num 5))
    "1234567890" "12345" "Foo" "ogolny" "42" "777"
    (Json.num 5) (Json.num 5) (Json.num 5) (Json.num 5) (Json.num 5) (Json.num 5)
    (Json.num 5) (Json.num 5) (Json.num 5) (Json.num 5) (Json.num 5)
    rfl rfl rfl rfl rfl rfl rfl rfl rfl rfl rfl
  exact ⟨h.1, h.2.2.1⟩

/-- C1 counterexample: on a remote failure, `get_token_amount` returns
the bare string `f"An error occurred: {e}"`, not the mapping
`{"error": f"An error occurred: {e}"}` that the claim asserts for all
eleven operations: the value the caller receives is a JSON string, not
an object. -/
theorem get_token_amount_error_is_not_a_mapping :
    (get_token_amount envKey (failWorld "network unreachable")).1 =
      "An error occurred: network unreachable" ∧
    Json.str ((get_token_amount envKey (failWorld "network unreachable")).1) ≠
      errorEnvelope "network unreachable" ∧
    Json.isObj (Json.str ((get_token_amount envKey (failWorld "network unreachable")).1)) =
      false := by
  refine ⟨rfl, ?_, rfl⟩
  intro h
  exact Json.noConfusion h

/-- C1 amended: for every remote failure, each of the ten
dict-returning operations returns the mapping
`{"error": f"An error occurred: {e}"}`, while the balance check
`get_token_amount` returns the bare string `f"An error occurred: {e}"`
instead of a mapping; in all eleven operations the failure is caught
and converted to a return value, never re-raised. -/
theorem error_paths_uniform_except_token_amount (env : Env) (world : World)
    (nip krs name chapter pid doc_id : String)
    (d0 d1 d2 d3 d4 d5 d6 d7 d8 d9 d10 : String)
    (h0 : (make_rejestr_io_request env world "konto/stan").1 = .error d0)
    (h1 : (make_rejestr_io_request env world ("org/nip/" ++ nip)).1 = .error d1)
    (h2 : (make_rejestr_io_request env world ("org/" ++ krs)).1 = .error d2)
    (h3 : (make_rejestr_io_request env world ("org?nazwa=" ++ name)).1 = .error d3)
    (h4 : (make_rejestr_io_request env world
        ("org/" ++ krs ++ "/krs-rozdzialy/" ++ chapter)).1 = .error d4)
    (h5 : (make_rejestr_io_request env world ("osoby/" ++ pid)).1 = .error d5)
    (h6 : (make_rejestr_io_request env world ("org/" ++ krs ++ "/crbr")).1 = .error d6)
    (h7 : (make_rejestr_io_request env world ("org/" ++ krs ++ "/krs-powiazania")).1 = .error d7)
    (h8 : (make_rejestr_io_request env world
        ("osoby/" ++ pid ++ "/krs-powiazania")).1 = .error d8)
    (h9 : (make_rejestr_io_request env world ("org/" ++ krs ++ "/krs-dokumenty")).1 = .error d9)
    (h10 : (make_rejestr_io_request env world
        ("org/" ++ krs ++ "/krs-dokumenty/" ++ doc_id ++ "?format=json")).1 = .error d10) :
    (get_token_amount env world).1 = "An error occurred: " ++ d0 ∧
    (get_company_info_using_nip env world nip).1 = errorEnvelope d1 ∧
    (get_company_info_using_krs env world krs).1 = errorEnvelope d2 ∧
    (get_company_info_using_name env world name).1 = errorEnvelope d3 ∧
    (get_company_krs_documentation env world krs chapter).1 = errorEnvelope d4 ∧
    (get_person_data env world pid).1 = errorEnvelope d5 ∧
    (get_beneficiary env world krs).1 = errorEnvelope d6 ∧
    (get_connections_by_krs env world krs).1 = errorEnvelope d7 ∧
    (get_connections_by_person env world pid).1 = errorEnvelope d8 ∧
    (get_financial_documents env world krs).1 = errorEnvelope d9 ∧
    (get_financial_statement_in_json env world krs doc_id).1 = errorEnvelope d10 := by
  simp only [make_rejestr_io_request] at h0 h1 h2 h3 h4 h5 h6 h7 h8 h9 h10
  refine ⟨?_, ?_, ?_, ?_, ?_, ?_, ?_, ?_, ?_, ?_, ?_⟩
  · rw [get_token_amount_eq, h0]
  · rw [get_company_info_using_nip_eq, h1]; rfl
  · rw [get_company_info_using_krs_eq, h2]; rfl
  · rw [get_company_info_using_name_eq, h3]; rfl
  · rw [get_company_krs_documentation_eq, h4]; rfl
  · rw [get_person_data_eq, h5]; rfl
  · rw [get_beneficiary_eq, h6]; rfl
  · rw [get_connections_by_krs_eq, h7]; rfl
  · rw [get_connections_by_person_eq, h8]; rfl
  · rw [get_financial_documents_eq, h9]; rfl
  · rw [get_financial_statement_in_json_eq, h10]; rfl

/-- C1 amended witness: under a world that fails every request with a
network error, the NIP lookup returns the error envelope and the
balance check returns the bare error string. -/
theorem error_paths_uniform_except_token_amount_witness :
    (get_company_info_using_nip envKey (failWorld "connection reset") "1234567890").1 =
      errorEnvelope "connection reset" ∧
    (get_token_amount envKey (failWorld "connection reset")).1 =
      "An error occurred: connection reset" := by
  have h := error_paths_uniform_except_token_amount envKey (failWorld "connection reset")
    "1234567890" "12345" "Foo" "ogolny" "42" "777"
    "connection reset" "connection reset" "connection reset" "connection reset"
    "connection reset" "connection reset" "connection reset" "connection reset"
    "connection reset" "connection reset" "connection reset"
    rfl rfl rfl rfl rfl rfl rfl rfl rfl rfl rfl
  exact ⟨h.2.1, h.1⟩

/-- C4: for every call, the request helper issues exactly one request
(no retry); a network failure makes it fail with the failure's own
message; a non-2xx status makes it fail with a message naming the
status and the URL; a 2xx response makes it return the decoded body.
The failure propagates as the helper's error value, unclassified. -/
theorem request_helper_single_attempt_spec (env : Env) (world : World)
    (endpoint : String) :
    (make_rejestr_io_request env world endpoint).2 = [requestFor env endpoint] ∧
    (∀ d, world (requestFor env endpoint) = .netError d →
      (make_rejestr_io_request env world endpoint).1 = .error d) ∧
    (∀ s b, world (requestFor env endpoint) = .response s b →
      ¬ (200 ≤ s ∧ s ≤ 299) →
      (make_rejestr_io_request env world endpoint).1 =
        .error ("HTTP status error " ++ toString s ++ " for url " ++
          (requestFor env endpoint).url)) ∧
    (∀ s b, world (requestFor env endpoint) = .response s b →
      (200 ≤ s ∧ s ≤ 299) →
      (make_rejestr_io_request env world endpoint).1 = .ok b) := by
  refine ⟨rfl, ?_, ?_, ?_⟩
  · intro d hw
    simp [make_rejestr_io_request, httpxGetJson, hw]
  · intro s b hw hs
    simp [make_rejestr_io_request, httpxGetJson, hw, hs]
  · intro s b hw hs
    simp [make_rejestr_io_request, httpxGetJson, hw, hs]

/-- C4 witness: a 401 response yields a status error naming 401 and the
URL, a network error propagates its message, and a 200 response yields
the body. -/
theorem request_helper_single_attempt_spec_witness :
    (make_rejestr_io_request envKey unauthorizedWorld "konto/stan").1 =
      .error ("HTTP status error 401 for url https://rejestr.io/api/v2/konto/stan") ∧
    (make_rejestr_io_request envKey (failWorld "connection reset") "org/12345").1 =
      .error "connection reset" ∧
    (make_rejestr_io_request envKey (okWorld (Json.num 7)) "konto/stan").1 =
      .ok (Json.num 7) := by
  have ha := (request_helper_single_attempt_spec envKey unauthorizedWorld
    "konto/stan").2.2.1 401 (Json.obj []) rfl (by decide)
  have hb := (request_helper_single_attempt_spec envKey (failWorld "connection reset")
    "org/12345").2.1 "connection reset" rfl
  have hc := (request_helper_single_attempt_spec envKey (okWorld (Json.num 7))
    "konto/stan").2.2.2 200 (Json.num 7) rfl (by decide)
  exact ⟨ha, hb, hc⟩

/-- C8: contrary to the claim, an absent credential does surface as a
locally raised fault before any request is made: httpx's request
construction rejects the `None` Authorization value with a `TypeError`
inside `make_rejestr_io_request`, no request is issued, and the
exception is not an `httpx.HTTPError`, so the tool's except clause
does not catch it and it crosses the tool boundary — shown here for
`get_company_info_using_krs`, whatever the remote world would answer.
With the credential present the full model coincides with the plain
one. -/
theorem missing_credential_raises_local_type_error :
    (∀ (world : World) (endpoint : String),
      make_rejestr_io_request_full envMissing world endpoint =
        (.error (.typeError typeErrorMsg), [])) ∧
    (∀ world : World,
      (get_company_info_using_krs_full envMissing world "12345").1 =
        .error (.typeError typeErrorMsg) ∧
      (get_company_info_using_krs_full envMissing world "12345").2 = []) ∧
    PyExc.isHTTPError (PyExc.typeError typeErrorMsg) = false ∧
    (∀ (key : String) (world : World) (krs : String),
      (get_company_info_using_krs_full ⟨some key⟩ world krs).1 =
        .ok (get_company_info_using_krs ⟨some key⟩ world krs).1 ∧
      (get_company_info_using_krs_full ⟨some key⟩ world krs).2 =
        (get_company_info_using_krs ⟨some key⟩ world krs).2) := by
  refine ⟨fun world endpoint => rfl, fun world => ⟨rfl, rfl⟩, rfl, ?_⟩
  intro key world krs
  rw [get_company_info_using_krs_eq]
  unfold get_company_info_using_krs_full make_rejestr_io_request_full
  cases h : httpxGetJson world (requestFor ⟨some key⟩ ("org/" ++ krs)) <;>
    simp [headerValuesOk, headers, h, dictResult]

/-- Agreement of two worlds at one request transfers through the httpx
layer. -/
theorem httpxGetJson_congr (w1 w2 : World) (req : Request)
    (h : w1 req = w2 req) : httpxGetJson w1 req = httpxGetJson w2 req := by
  unfold httpxGetJson
  rw [h]

/-- C9: every operation is stateless and independent: its result (value
and issued requests) is a function only of its own arguments and of the
remote outcome of its own single request — two worlds agreeing on that
one request give identical results, for each of the eleven operations.
Consequently two overlapping invocations of different operations under
one shared world each receive exactly the result they would have
received running alone. -/
theorem operations_stateless_and_independent (env : Env)
    (w1 w2 wShared wA wB : World)
    (nip krs name chapter pid doc_id : String) :
    (w1 (requestFor env "konto/stan") = w2 (requestFor env "konto/stan") →
      get_token_amount env w1 = get_token_amount env w2) ∧
    (w1 (requestFor env ("org/nip/" ++ nip)) = w2 (requestFor env ("org/nip/" ++ nip)) →
      get_company_info_using_nip env w1 nip = get_company_info_using_nip env w2 nip) ∧
    (w1 (requestFor env ("org/" ++ krs)) = w2 (requestFor env ("org/" ++ krs)) →
      get_company_info_using_krs env w1 krs = get_company_info_using_krs env w2 krs) ∧
    (w1 (requestFor env ("org?nazwa=" ++ name)) = w2 (requestFor env ("org?nazwa=" ++ name)) →
      get_company_info_using_name env w1 name = get_company_info_using_name env w2 name) ∧
    (w1 (requestFor env ("org/" ++ krs ++ "/krs-rozdzialy/" ++ chapter)) =
        w2 (requestFor env ("org/" ++ krs ++ "/krs-rozdzialy/" ++ chapter)) →
      get_company_krs_documentation env w1 krs chapter =
        get_company_krs_documentation env w2 krs chapter) ∧
    (w1 (requestFor env ("osoby/" ++ pid)) = w2 (requestFor env ("osoby/" ++ pid)) →
      get_person_data env w1 pid = get_person_data env w2 pid) ∧
    (w1 (requestFor env ("org/" ++ krs ++ "/crbr")) =
        w2 (requestFor env ("org/" ++ krs ++ "/crbr")) →
      get_beneficiary env w1 krs = get_beneficiary env w2 krs) ∧
    (w1 (requestFor env ("org/" ++ krs ++ "/krs-powiazania")) =
        w2 (requestFor env ("org/" ++ krs ++ "/krs-powiazania")) →
      get_connections_by_krs env w1 krs = get_connections_by_krs env w2 krs) ∧
    (w1 (requestFor env ("osoby/" ++ pid ++ "/krs-powiazania")) =
        w2 (requestFor env ("osoby/" ++ pid ++ "/krs-powiazania")) →
      get_connections_by_person env w1 pid = get_connections_by_person env w2 pid) ∧
    (w1 (requestFor env ("org/" ++ krs ++ "/krs-dokumenty")) =
        w2 (requestFor env ("org/" ++ krs ++ "/krs-dokumenty")) →
      get_financial_documents env w1 krs = get_financial_documents env w2 krs) ∧
    (w1 (requestFor env ("org/" ++ krs ++ "/krs-dokumenty/" ++ doc_id ++ "?format=json")) =
        w2 (requestFor env ("org/" ++ krs ++ "/krs-dokumenty/" ++ doc_id ++ "?format=json")) →
      get_financial_statement_in_json env w1 krs doc_id =
        get_financial_statement_in_json env w2 krs doc_id) ∧
    (wShared (requestFor env ("org/" ++ krs)) = wA (requestFor env ("org/" ++ krs)) →
      wShared (requestFor env ("org/nip/" ++ nip)) = wB (requestFor env ("org/nip/" ++ nip)) →
      get_company_info_using_krs env wShared krs = get_company_info_using_krs env wA krs ∧
      get_company_info_using_nip env wShared nip = get_company_info_using_nip env wB nip) := by
  refine ⟨?_, ?_, ?_, ?_, ?_, ?_, ?_, ?_, ?_, ?_, ?_, ?_⟩
  · intro h
    rw [get_token_amount_eq, get_token_amount_eq, httpxGetJson_congr w1 w2 _ h]
  · intro h
    rw [get_company_info_using_nip_eq, get_company_info_using_nip_eq,
      httpxGetJson_congr w1 w2 _ h]
  · intro h
    rw [get_company_info_using_krs_eq, get_company_info_using_krs_eq,
      httpxGetJson_congr w1 w2 _ h]
  · intro h
    rw [get_company_info_using_name_eq, get_company_info_using_name_eq,
      httpxGetJson_congr w1 w2 _ h]
  · intro h
    rw [get_company_krs_documentation_eq, get_company_krs_documentation_eq,
      httpxGetJson_congr w1 w2 _ h]
  · intro h
    rw [get_person_data_eq, get_person_data_eq, httpxGetJson_congr w1 w2 _ h]
  · intro h
    rw [get_beneficiary_eq, get_beneficiary_eq, httpxGetJson_congr w1 w2 _ h]
  · intro h
    rw [get_connections_by_krs_eq, get_connections_by_krs_eq, httpxGetJson_congr w1 w2 _ h]
  · intro h
    rw [get_connections_by_person_eq, get_connections_by_person_eq,
      httpxGetJson_congr w1 w2 _ h]
  · intro h
    rw [get_financial_documents_eq, get_financial_documents_eq, httpxGetJson_congr w1 w2 _ h]
  · intro h
    rw [get_financial_statement_in_json_eq, get_financial_statement_in_json_eq,
      httpxGetJson_congr w1 w2 _ h]
  · intro hA hB
    constructor
    · rw [get_company_info_using_krs_eq, get_company_info_using_krs_eq,
        httpxGetJson_congr wShared wA _ hA]
    · rw [get_company_info_using_nip_eq, get_company_info_using_nip_eq,
        httpxGetJson_congr wShared wB _ hB]

/-- C9 witness: `mixedWorld` answers the KRS-lookup URL with body 1 and
everything else with body 2; two overlapping calls — the KRS lookup and
the NIP lookup — each get exactly the result they would get alone
against worlds that answer uniformly with their own body. -/
theorem operations_stateless_and_independent_witness :
    get_company_info_using_krs envKey mixedWorld "12345" =
      get_company_info_using_krs envKey (okWorld (Json.num 1)) "12345" ∧
    get_company_info_using_nip envKey mixedWorld "777" =
      get_company_info_using_nip envKey (okWorld (Json.num 2)) "777" ∧
    (get_company_info_using_krs envKey mixedWorld "12345").1 = Json.num 1 ∧
    (get_company_info_using_nip envKey mixedWorld "777").1 = Json.num 2 := by
  have h := (operations_stateless_and_independent envKey mixedWorld mixedWorld
    mixedWorld (okWorld (Json.num 1)) (okWorld (Json.num 2))
    "777" "12345" "Foo" "ogolny" "42" "999").2.2.2.2.2.2.2.2.2.2.2 rfl rfl
  exact ⟨h.1, h.2, rfl, rfl⟩
